import Mathlib

/-!
Shallow embedding of the Dialogue Router chatbot (src/chatbot.py) and proofs
of the specification claims about it.

The Python program is a single file.  Its functional core consists of:
  get_weather (lines 39-64), get_tasks (lines 66-105),
  update_preferences (lines 108-113), ask_preference_questions (117-126),
  handle_quick_action (130-136) and generate_response (141-194),
all operating on a session-scoped mutable record
  st.session_state = (messages, user_prefs, awaiting_preference).

External HTTP calls and the generative model are modelled by an oracle
environment Env.  Python string operations used by the source (lower, strip,
split, replace, substring containment) are embedded as structurally
recursive functions over the character list of the string so that they
compute inside the kernel.
-/

/-! ## Python string primitives -/

/-- Boolean prefix test on character lists (model of startswith used by the
split and containment helpers below). -/
def listIsPrefixOf : List Char → List Char → Bool
  | [], _ => true
  | _ :: _, [] => false
  | a :: as, b :: bs => a == b && listIsPrefixOf as bs

/-- Helper for substring containment: does sub occur in the given list. -/
def strContainsAux (sub : List Char) : List Char → Bool
  | [] => listIsPrefixOf sub []
  | c :: rest => listIsPrefixOf sub (c :: rest) || strContainsAux sub rest

/-- Model of the Python substring test "sub in s" (only used with non-empty
literal patterns in the source). -/
def strContains (s sub : String) : Bool :=
  strContainsAux sub.data s.data

/-- Model of Python str.split(sep) on character lists, scanning left to right
for non-overlapping occurrences of the (non-empty) separator.  The fuel
argument makes the recursion structural; callers pass length + 1 fuel, which
is always enough because every step consumes at least one character. -/
def pySplitList (sep : List Char) : Nat → List Char → List Char → List (List Char)
  | _, [], acc => [acc.reverse]
  | 0, rest, acc => [acc.reverse ++ rest]
  | Nat.succ fuel, c :: rest, acc =>
    if listIsPrefixOf sep (c :: rest) then
      acc.reverse :: pySplitList sep fuel (List.drop sep.length (c :: rest)) []
    else
      pySplitList sep fuel rest (c :: acc)

/-- Model of Python str.split(sep). -/
def pySplit (s sep : String) : List String :=
  (pySplitList sep.data (s.data.length + 1) s.data []).map String.mk

/-- Join character chunks with a separator (used to model str.replace). -/
def joinChars (sep : List Char) : List (List Char) → List Char
  | [] => []
  | [x] => x
  | x :: xs => x ++ sep ++ joinChars sep xs

/-- Model of Python str.replace(old, new): replaces every non-overlapping
occurrence of old (equivalently, new.join(s.split(old)) for non-empty old). -/
def pyReplace (s old new : String) : String :=
  String.mk (joinChars new.data (pySplitList old.data (s.data.length + 1) s.data []))

/-- Python whitespace characters relevant to str.strip. -/
def isPySpace (c : Char) : Bool :=
  c == ' ' || c == '\t' || c == '\n' || c == '\r' || c == '\x0b' || c == '\x0c'

/-- Model of Python str.strip(): removes leading and trailing whitespace. -/
def pyStrip (s : String) : String :=
  String.mk (((s.data.dropWhile isPySpace).reverse.dropWhile isPySpace).reverse)

/-- Model of Python str.lower() (ASCII case folding, which is all the source
uses it for). -/
def pyLower (s : String) : String :=
  String.mk (s.data.map Char.toLower)

/-- Rendering of an optional string the way a Python f-string renders the
value: None prints as "None", a string prints verbatim. -/
def pyShowOptStr : Option String → String
  | none => "None"
  | some s => s

/-- Join a list of strings with a separator, the model of sep.join(xs). -/
def joinStrings (sep : String) : List String → String
  | [] => ""
  | [x] => x
  | x :: xs => x ++ sep ++ joinStrings sep xs

/-! ## JSON values

requests.Response.json() yields an arbitrary JSON value; numbers are stored
together with their Python textual rendering (the only way the source ever
consumes them is through f-string interpolation). -/

inductive Json where
  | jstr : String → Json
  | jnum : String → Json
  | jbool : Bool → Json
  | jnull : Json
  | jarr : List Json → Json
  | jobj : List (String × Json) → Json

mutual

/-- Python repr of a JSON value (used by f-strings for non-string values). -/
def Json.pyRepr : Json → String
  | Json.jstr s => "\x27" ++ s ++ "\x27"
  | Json.jnum n => n
  | Json.jbool b => if b then "True" else "False"
  | Json.jnull => "None"
  | Json.jarr xs => "[" ++ Json.pyReprElems xs ++ "]"
  | Json.jobj fs => "\x7b" ++ Json.pyReprFields fs ++ "\x7d"

/-- Comma-separated repr of array elements. -/
def Json.pyReprElems : List Json → String
  | [] => ""
  | [x] => Json.pyRepr x
  | x :: xs => Json.pyRepr x ++ ", " ++ Json.pyReprElems xs

/-- Comma-separated repr of object fields. -/
def Json.pyReprFields : List (String × Json) → String
  | [] => ""
  | [(k, v)] => "\x27" ++ k ++ "\x27: " ++ Json.pyRepr v
  | (k, v) :: fs => "\x27" ++ k ++ "\x27: " ++ Json.pyRepr v ++ ", " ++ Json.pyReprFields fs

end

/-- Python str() of a JSON value, as an f-string renders it: a string value
prints verbatim, anything else prints via repr. -/
def Json.pyStr : Json → String
  | Json.jstr s => s
  | j => Json.pyRepr j

/-- First-match field lookup in a JSON object (Python dict keys are unique,
so first match is the lookup). -/
def lookupField (fs : List (String × Json)) (k : String) : Option Json :=
  (fs.find? (fun kv => kv.fst == k)).map (fun kv => kv.snd)

/-- Model of Python subscripting j[k]: KeyError (whose str() is the quoted
key) when a dict lacks the key; a TypeError for non-dict values.  The error
string abstracts the interpreter message; no claim depends on its text. -/
def pyGetItem (j : Json) (k : String) : Except String Json :=
  match j with
  | Json.jobj fs =>
    match lookupField fs k with
    | some v => Except.ok v
    | none => Except.error ("\x27" ++ k ++ "\x27")
  | _ => Except.error "object is not subscriptable"

/-- Model of the Python membership test "k in j".  Dicts test key presence,
lists test element equality with the string, strings test substring;
other values raise TypeError (message abstracted). -/
def pyContains (j : Json) (k : String) : Except String Bool :=
  match j with
  | Json.jobj fs => Except.ok (fs.any (fun kv => kv.fst == k))
  | Json.jarr xs =>
    Except.ok (xs.any (fun x => match x with
      | Json.jstr s => s == k
      | _ => false))
  | Json.jstr s => Except.ok (strContains s k)
  | _ => Except.error "argument is not iterable"

/-- Model of dict.get(k, dflt) followed by f-string rendering of the result:
the stored value rendered via pyStr when the key is present, otherwise the
default string.  Non-dict receivers raise (message abstracted). -/
def pyDictGetStr (j : Json) (k : String) (dflt : String) : Except String String :=
  match j with
  | Json.jobj fs =>
    match lookupField fs k with
    | some v => Except.ok (Json.pyStr v)
    | none => Except.ok dflt
  | _ => Except.error "object has no attribute get"

/-! ## External world

The three outbound calls of the source are modelled by an oracle.  An
Except.error value models a raised exception whose str() is the payload. -/

/-- Body outcome of the Todoist HTTP response: response.json() either raises
ValueError (unparsable) or yields a JSON value. -/
inductive TasksBody where
  | unparsable : TasksBody
  | parsed : Json → TasksBody

/-- Outcome of requests.get on the Todoist endpoint: an exception, or a
response carrying a status code and a body. -/
inductive TasksHttp where
  | exn : String → TasksHttp
  | resp : Nat → TasksBody → TasksHttp

/-- Oracle for the three external calls made by the source: the weather
provider (requests.get + json() for a given location query), the task
provider, and the generative model call (generate_content + .text). -/
structure Env where
  weatherFetch : Option String → Except String Json
  tasksHttp : TasksHttp
  genContent : String → Except String String

/-! ## get_weather (src/chatbot.py lines 39-64) -/

/-- Body of the try block of get_weather after response.json() succeeded
with value data (lines 51-62): provider-reported error check, then field
accesses in source order, then the formatted multi-line summary. -/
def weatherBody (data : Json) (location : Option String) : Except String String := do
  let hasErr ← pyContains data "error"
  if hasErr then
    let errObj ← pyGetItem data "error"
    let msg ← pyGetItem errObj "message"
    return "Could not get weather: " ++ Json.pyStr msg
  else
    let current ← pyGetItem data "current"
    let cond ← pyGetItem current "condition"
    let condText ← pyGetItem cond "text"
    let tempC ← pyGetItem current "temp_c"
    let tempF ← pyGetItem current "temp_f"
    let humidity ← pyGetItem current "humidity"
    let windK ← pyGetItem current "wind_kph"
    let windM ← pyGetItem current "wind_mph"
    let uv ← pyDictGetStr current "uv" "N/A"
    return "🌤️ Weather in " ++ pyShowOptStr location ++ ":\n\n"
      ++ "☁️ Condition: " ++ Json.pyStr condText ++ "\n"
      ++ "\n🌡️ Temperature: " ++ Json.pyStr tempC ++ "°C (" ++ Json.pyStr tempF ++ "°F)\n"
      ++ "\n💧 Humidity: " ++ Json.pyStr humidity ++ "%\n"
      ++ "\n🌬️ Wind: " ++ Json.pyStr windK ++ " km/h (" ++ Json.pyStr windM ++ " mph)\n"
      ++ "\n🌞 UV Index: " ++ uv

/-- get_weather (lines 39-64): one provider call, every exception inside the
try block converted to the "Error getting weather" message.  The location
argument is Option String because the quick-action caller can pass the
stored None value (rendered "None" by the f-string). -/
def get_weather (env : Env) (location : Option String) : String :=
  match env.weatherFetch location >>= fun data => weatherBody data location with
  | Except.ok s => s
  | Except.error e => "Error getting weather: " ++ e

/-! ## get_tasks (src/chatbot.py lines 66-105) -/

/-- get_tasks (lines 66-105): status check, JSON parse check, list-shape
check, then at most the first five entries keeping dict entries that carry a
"content" field, each rendered as a bullet line. -/
def get_tasks (env : Env) : String :=
  match env.tasksHttp with
  | TasksHttp.exn e => "Error getting tasks: " ++ e
  | TasksHttp.resp status body =>
    if status != 200 then
      "Todoist API error: Status " ++ toString status
    else
      match body with
      | TasksBody.unparsable => "Invalid response format from Todoist"
      | TasksBody.parsed tasks =>
        match tasks with
        | Json.jarr items =>
          let task_list := (items.take 5).filterMap (fun task =>
            match task with
            | Json.jobj fs =>
              match lookupField fs "content" with
              | some v => some ("- " ++ Json.pyStr v)
              | none => none
            | _ => none)
          if task_list.isEmpty then
            "No valid tasks found in your Todoist!"
          else
            "Here are your upcoming tasks:\n" ++ joinStrings "\n" task_list
        | _ => "Unexpected response format from Todoist"

/-! ## Session state (src/chatbot.py lines 17-26) -/

/-- The awaiting_preference session key only ever holds "name" or
"location" (lines 26, 120, 123). -/
inductive Awaiting where
  | name : Awaiting
  | location : Awaiting
  deriving DecidableEq

/-- user_prefs (lines 21-25): a dict created with both keys present, each
holding None until set. -/
structure Prefs where
  name : Option String
  location : Option String
  deriving DecidableEq

/-- One chat message of st.session_state.messages. -/
structure Msg where
  role : String
  content : String
  deriving DecidableEq

/-- st.session_state as the Router sees it: preferences, the optional
awaiting_preference key (none models key absence), and the message log. -/
structure SessionState where
  user_prefs : Prefs
  awaiting_preference : Option Awaiting
  messages : List Msg
  deriving DecidableEq

/-- Fresh session state (lines 18-26): empty log, both preferences unset,
awaiting_preference = "name". -/
def initialState : SessionState :=
  { user_prefs := { name := none, location := none }
    awaiting_preference := some Awaiting.name
    messages := [] }

/-- The two shapes of updates dict ever passed to update_preferences
(lines 147, 149, 161, 164). -/
inductive PrefUpdate where
  | name : String → PrefUpdate
  | location : String → PrefUpdate

/-- update_preferences (lines 108-113): apply the update, delete the
awaiting_preference key if present, return the confirmation text. -/
def update_preferences (st : SessionState) (u : PrefUpdate) : SessionState × String :=
  let prefs :=
    match u with
    | PrefUpdate.name v => { st.user_prefs with name := some v }
    | PrefUpdate.location v => { st.user_prefs with location := some v }
  ({ st with user_prefs := prefs, awaiting_preference := none },
   "Preferences updated successfully!")

/-- ask_preference_questions (lines 117-126): arm the cursor and return the
next question for the first unset preference, or no question when both are
set.  The third question of the source (line 125) sits after a return
statement and is dead code. -/
def ask_preference_questions (st : SessionState) : SessionState × Option String :=
  match st.user_prefs.name with
  | none =>
    ({ st with awaiting_preference := some Awaiting.name },
     some "Welcome! To personalize your experience, may I know your name?")
  | some n =>
    match st.user_prefs.location with
    | none =>
      ({ st with awaiting_preference := some Awaiting.location },
       some ("Thanks " ++ n ++ "! Where are you located? (This helps with weather reports)"))
    | some _ => (st, none)

/-- Association-list view of the user_prefs dict: both keys are always
present (created together at lines 21-25 and only ever overwritten by
dict.update, which never removes keys). -/
def prefsToDict (p : Prefs) : List (String × Option String) :=
  [("name", p.name), ("location", p.location)]

/-- Model of dict.get(k, dflt) on the preference dict; values are optional
strings (None or text), the default is injected as a present value. -/
def dictGet (d : List (String × Option String)) (k : String) (dflt : Option String) : Option String :=
  match d.find? (fun kv => kv.fst == k) with
  | some kv => kv.snd
  | none => dflt

/-- handle_quick_action (lines 130-136). -/
def handle_quick_action (env : Env) (st : SessionState) (action : String) : String :=
  if action == "weather" then
    get_weather env (dictGet (prefsToDict st.user_prefs) "location" (some "Colombo"))
  else if action == "tasks" then
    get_tasks env
  else
    "Unknown action"

/-- Static capability summary returned by the help branch (lines 183-187). -/
def helpText : String :=
  "I can help with:\n"
  ++ "- Weather information (try \x27weather [location]\x27)\n"
  ++ "- Todoist tasks (try \x27show my tasks\x27)\n"
  ++ "- Set preferences (try \x27my name is...\x27, \x27set location to...\x27)\n"
  ++ "- Or ask me anything else!"

/-! ## generate_response (src/chatbot.py lines 141-194) -/

/-- generate_response (lines 141-194): the Router dispatch.  Returns the
updated session state together with the response string.  Branch order as
in the source: pending preference answer, manual preference assertions,
incomplete-preferences guard, keyword triggers (weather, tasks or todo,
who am i, help), generative fallback. -/
def generate_response (env : Env) (st : SessionState) (prompt : String) : SessionState × String :=
  match st.awaiting_preference with
  | some pref_type =>
    let upd :=
      match pref_type with
      | Awaiting.name => update_preferences st (PrefUpdate.name prompt)
      | Awaiting.location => update_preferences st (PrefUpdate.location prompt)
    let ask := ask_preference_questions upd.1
    match ask.2 with
    | some q => (ask.1, upd.2 ++ "\n\n" ++ q)
    | none => (ask.1, upd.2)
  | none =>
    if strContains (pyLower prompt) "my name is" then
      let nm := pyStrip (List.getD (pySplit (pyLower prompt) "my name is") 1 "")
      update_preferences st (PrefUpdate.name nm)
    else if strContains (pyLower prompt) "set location to" then
      let lc := pyStrip (List.getD (pySplit (pyLower prompt) "set location to") 1 "")
      update_preferences st (PrefUpdate.location lc)
    else
      let ask := ask_preference_questions st
      match ask.2 with
      | some q => (ask.1, q)
      | none =>
        let st3 := ask.1
        if strContains (pyLower prompt) "weather" then
          let location0 := pyStrip (pyReplace (pyLower prompt) "weather" "")
          let location := if location0 == "" then st3.user_prefs.location else some location0
          (st3, get_weather env location)
        else if strContains (pyLower prompt) "tasks" || strContains (pyLower prompt) "todo" then
          (st3, get_tasks env)
        else if strContains (pyLower prompt) "who am i" then
          (st3, "You are " ++ pyShowOptStr st3.user_prefs.name
                ++ ", located in " ++ pyShowOptStr st3.user_prefs.location ++ ". ")
        else if strContains (pyLower prompt) "help" then
          (st3, helpText)
        else
          match env.genContent prompt with
          | Except.ok t => (st3, t)
          | Except.error e => (st3, "Sorry, I encountered an error: " ++ e)

/-- States reachable from the fresh session state by Router calls alone
(generate_response is the only source function that mutates preferences or
the awaiting cursor). -/
inductive Reachable : SessionState → Prop where
  | init : Reachable initialState
  | step (env : Env) (prompt : String) {st : SessionState} :
      Reachable st → Reachable (generate_response env st prompt).1

/-! ## Invariant and fixtures -/

/-- The cursor and field-state relationship of section 3 of the spec:
awaiting is "name" exactly while the name is unset, "location" exactly while
the name is set and the location is unset, and absent exactly once both are
set. -/
def StateInv (st : SessionState) : Prop :=
  (st.awaiting_preference = some Awaiting.name ↔ st.user_prefs.name = none)
  ∧ (st.awaiting_preference = some Awaiting.location ↔
       st.user_prefs.name ≠ none ∧ st.user_prefs.location = none)
  ∧ (st.awaiting_preference = none ↔
       st.user_prefs.name ≠ none ∧ st.user_prefs.location ≠ none)

/-- Oracle whose weather call fails with a message naming the location it
was called with (used to observe call arguments), whose task call raises,
and whose model call echoes. -/
def envProbe : Env :=
  { weatherFetch := fun loc => Except.error (pyShowOptStr loc)
    tasksHttp := TasksHttp.exn "connection refused"
    genContent := fun p => Except.ok ("echo: " ++ p) }

/-- Oracle on which all three external calls fail. -/
def envFail : Env :=
  { weatherFetch := fun _ => Except.error "weather down"
    tasksHttp := TasksHttp.exn "tasks down"
    genContent := fun _ => Except.error "model down" }

/-- Oracle whose weather provider answers every query with the given
payload. -/
def mkWeatherEnv (d : Json) : Env :=
  { weatherFetch := fun _ => Except.ok d
    tasksHttp := TasksHttp.exn "unused"
    genContent := fun _ => Except.error "unused" }

/-- Oracle whose task provider answers 200 with the given JSON list. -/
def mkTasksEnv (ts : List Json) : Env :=
  { weatherFetch := fun _ => Except.error "unused"
    tasksHttp := TasksHttp.resp 200 (TasksBody.parsed (Json.jarr ts))
    genContent := fun _ => Except.error "unused" }

/-- A weather success payload with the given rendered field values; the uv
field is present or absent according to the last argument. -/
def mkCurrentData (ct tc tf hu wk wm : String) (uv : Option Json) : Json :=
  Json.jobj [("current", Json.jobj
    ([("condition", Json.jobj [("text", Json.jstr ct)]),
      ("temp_c", Json.jnum tc),
      ("temp_f", Json.jnum tf),
      ("humidity", Json.jnum hu),
      ("wind_kph", Json.jnum wk),
      ("wind_mph", Json.jnum wm)]
     ++ (match uv with
         | some v => [("uv", v)]
         | none => [])))]

/-- The success payload of the testable-property example in section 8 of the
spec. -/
def sunnyData : Json :=
  mkCurrentData "Sunny" "25" "77" "40" "10" "6.2" (some (Json.jnum "5"))

/-- A completed-preferences session state. -/
def stDone : SessionState :=
  { user_prefs := { name := some "alex", location := some "colombo" }
    awaiting_preference := none
    messages := [] }

/-- Completed state whose stored location is the capitalised "Colombo". -/
def stColombo : SessionState :=
  { user_prefs := { name := some "alex", location := some "Colombo" }
    awaiting_preference := none
    messages := [] }

/-- State with the name set but the location still unset and no pending
question. -/
def stLocUnset : SessionState :=
  { user_prefs := { name := some "alex", location := none }
    awaiting_preference := none
    messages := [] }

/-- State with both preferences unset and the awaiting_preference key
absent (expressible in the state record, not reachable by Router calls). -/
def stGuardGap : SessionState :=
  { user_prefs := { name := none, location := none }
    awaiting_preference := none
    messages := [] }

/-! ## Helper lemmas -/

/-- States with both preferences set and no pending question satisfy the
cursor invariant. -/
theorem stateInv_complete (n l : String) (ms : List Msg) :
    StateInv ⟨⟨some n, some l⟩, none, ms⟩ := by
  simp [StateInv]

/-- States awaiting the location with the name set satisfy the cursor
invariant. -/
theorem stateInv_awaitLoc (n : String) (ms : List Msg) :
    StateInv ⟨⟨some n, none⟩, some Awaiting.location, ms⟩ := by
  simp [StateInv]

/-- States awaiting the name with the name unset satisfy the cursor
invariant. -/
theorem stateInv_awaitName (pl : Option String) (ms : List Msg) :
    StateInv ⟨⟨none, pl⟩, some Awaiting.name, ms⟩ := by
  simp [StateInv]

/-- Frame helper: with no pending question, both preferences set and
neither manual-assertion phrase present, every remaining branch of the
Router returns the input state unchanged. -/
theorem later_branches_frame (env : Env) (st : SessionState) (prompt : String)
    (n l : String)
    (hA : st.awaiting_preference = none)
    (h1 : strContains (pyLower prompt) "my name is" = false)
    (h2 : strContains (pyLower prompt) "set location to" = false)
    (hn : st.user_prefs.name = some n)
    (hl : st.user_prefs.location = some l) :
    (generate_response env st prompt).1 = st := by
  obtain ⟨⟨pn, pl⟩, aw, ms⟩ := st
  have hA2 : aw = none := hA
  have hn2 : pn = some n := hn
  have hl2 : pl = some l := hl
  subst hA2; subst hn2; subst hl2
  cases hw : strContains (pyLower prompt) "weather" with
  | true => simp [generate_response, ask_preference_questions, h1, h2, hw]
  | false =>
    cases ht : strContains (pyLower prompt) "tasks" with
    | true => simp [generate_response, ask_preference_questions, h1, h2, hw, ht]
    | false =>
      cases htd : strContains (pyLower prompt) "todo" with
      | true => simp [generate_response, ask_preference_questions, h1, h2, hw, ht, htd]
      | false =>
        cases hwho : strContains (pyLower prompt) "who am i" with
        | true => simp [generate_response, ask_preference_questions, h1, h2, hw, ht, htd, hwho]
        | false =>
          cases hh : strContains (pyLower prompt) "help" with
          | true => simp [generate_response, ask_preference_questions, h1, h2, hw, ht, htd, hwho, hh]
          | false =>
            cases hg : env.genContent prompt with
            | ok t => simp [generate_response, ask_preference_questions, h1, h2, hw, ht, htd, hwho, hh, hg]
            | error e => simp [generate_response, ask_preference_questions, h1, h2, hw, ht, htd, hwho, hh, hg]

/-- One Router call preserves the cursor invariant. -/
theorem stateInv_step (env : Env) (prompt : String) (st : SessionState)
    (h : StateInv st) : StateInv (generate_response env st prompt).1 := by
  obtain ⟨⟨pn, pl⟩, aw, ms⟩ := st
  obtain ⟨i1, i2, i3⟩ := h
  cases aw with
  | some a =>
    cases a with
    | name =>
      have hpn : pn = none := i1.mp rfl
      subst hpn
      cases pl with
      | none => exact stateInv_awaitLoc prompt ms
      | some x => exact stateInv_complete prompt x ms
    | location =>
      have h2 := i2.mp rfl
      have hpl : pl = none := h2.2
      subst hpl
      cases pn with
      | none => exact absurd rfl h2.1
      | some n => exact stateInv_complete n prompt ms
  | none =>
    have h3 := i3.mp rfl
    obtain ⟨n, hn⟩ := Option.ne_none_iff_exists'.mp h3.1
    obtain ⟨l, hl⟩ := Option.ne_none_iff_exists'.mp h3.2
    have hn2 : pn = some n := hn
    have hl2 : pl = some l := hl
    subst hn2
    subst hl2
    cases hc1 : strContains (pyLower prompt) "my name is" with
    | true =>
      simpa [generate_response, update_preferences, hc1] using
        stateInv_complete (pyStrip (List.getD (pySplit (pyLower prompt) "my name is") 1 "")) l ms
    | false =>
      cases hc2 : strContains (pyLower prompt) "set location to" with
      | true =>
        simpa [generate_response, update_preferences, hc1, hc2] using
          stateInv_complete n (pyStrip (List.getD (pySplit (pyLower prompt) "set location to") 1 "")) ms
      | false =>
        cases hw : strContains (pyLower prompt) "weather" with
        | true =>
          simpa [generate_response, ask_preference_questions, hc1, hc2, hw] using
            stateInv_complete n l ms
        | false =>
          cases ht : strContains (pyLower prompt) "tasks" with
          | true =>
            simpa [generate_response, ask_preference_questions, hc1, hc2, hw, ht] using
              stateInv_complete n l ms
          | false =>
            cases htd : strContains (pyLower prompt) "todo" with
            | true =>
              simpa [generate_response, ask_preference_questions, hc1, hc2, hw, ht, htd] using
                stateInv_complete n l ms
            | false =>
              cases hwho : strContains (pyLower prompt) "who am i" with
              | true =>
                simpa [generate_response, ask_preference_questions, hc1, hc2, hw, ht, htd, hwho] using
                  stateInv_complete n l ms
              | false =>
                cases hh : strContains (pyLower prompt) "help" with
                | true =>
                  simpa [generate_response, ask_preference_questions, hc1, hc2, hw, ht, htd, hwho, hh] using
                    stateInv_complete n l ms
                | false =>
                  cases hg : env.genContent prompt with
                  | ok t =>
                    simpa [generate_response, ask_preference_questions, hc1, hc2, hw, ht, htd, hwho, hh, hg] using
                      stateInv_complete n l ms
                  | error e =>
                    simpa [generate_response, ask_preference_questions, hc1, hc2, hw, ht, htd, hwho, hh, hg] using
                      stateInv_complete n l ms

/-! ## Claims -/

/-- Claim C2: in every state reachable from the fresh session state by
Router calls, the awaiting cursor is "name" exactly while the name is unset,
"location" exactly while the name is set and the location unset, and absent
exactly once both are set; no other combination occurs. -/
theorem c2_awaiting_invariant (st : SessionState) (h : Reachable st) :
    StateInv st := by
  induction h with
  | init => simp [StateInv, initialState]
  | step env prompt hr ih => exact stateInv_step env prompt _ ih

/-- Witness for C2: the invariant holds at the fresh session state. -/
theorem c2_awaiting_invariant_witness : StateInv initialState :=
  c2_awaiting_invariant initialState Reachable.init

/-- Claim C6: once the preference flow has completed (no pending question),
the utterance "my name is Alex" stores the lowercased, trimmed remainder
"alex" as the name and returns the confirmation text. -/
theorem c6_manual_name (env : Env) (st : SessionState)
    (hA : st.awaiting_preference = none) :
    generate_response env st "my name is Alex" =
      ({ st with
          user_prefs := { st.user_prefs with name := some "alex" },
          awaiting_preference := none },
       "Preferences updated successfully!") := by
  obtain ⟨⟨pn, pl⟩, aw, ms⟩ := st
  have hA2 : aw = none := hA
  subst hA2
  rfl

/-- Witness for C6 at a completed-preferences state. -/
theorem c6_manual_name_witness :
    generate_response envProbe stDone "my name is Alex" =
      ({ stDone with
          user_prefs := { stDone.user_prefs with name := some "alex" },
          awaiting_preference := none },
       "Preferences updated successfully!") :=
  c6_manual_name envProbe stDone rfl

/-- Claim C7: with a pending preference question, the whole utterance is
stored verbatim in the pending field, the cursor advances to the next unset
field or is cleared, and the response is the acknowledgment followed by the
next question when one remains, else the acknowledgment alone. -/
theorem c7_pending_branch (env : Env) (st : SessionState) (prompt : String) :
    (st.awaiting_preference = some Awaiting.name →
      generate_response env st prompt =
        (match st.user_prefs.location with
         | none =>
           ({ st with
               user_prefs := { st.user_prefs with name := some prompt },
               awaiting_preference := some Awaiting.location },
            "Preferences updated successfully!\n\nThanks " ++ prompt
              ++ "! Where are you located? (This helps with weather reports)")
         | some _ =>
           ({ st with
               user_prefs := { st.user_prefs with name := some prompt },
               awaiting_preference := none },
            "Preferences updated successfully!")))
    ∧ (st.awaiting_preference = some Awaiting.location →
      generate_response env st prompt =
        (match st.user_prefs.name with
         | some _ =>
           ({ st with
               user_prefs := { st.user_prefs with location := some prompt },
               awaiting_preference := none },
            "Preferences updated successfully!")
         | none =>
           ({ st with
               user_prefs := { st.user_prefs with location := some prompt },
               awaiting_preference := some Awaiting.name },
            "Preferences updated successfully!\n\nWelcome! To personalize your experience, may I know your name?"))) := by
  obtain ⟨⟨pn, pl⟩, aw, ms⟩ := st
  constructor
  · intro h
    have h2 : aw = some Awaiting.name := h
    subst h2
    cases pl <;> rfl
  · intro h
    have h2 : aw = some Awaiting.location := h
    subst h2
    cases pn <;> rfl

/-- Witness for C7 at the fresh state: the first answer is stored as the
name and the location question follows the acknowledgment. -/
theorem c7_pending_branch_witness :
    generate_response envProbe initialState "Dinuka" =
      ({ initialState with
          user_prefs := { initialState.user_prefs with name := some "Dinuka" },
          awaiting_preference := some Awaiting.location },
       "Preferences updated successfully!\n\nThanks Dinuka! Where are you located? (This helps with weather reports)") :=
  (c7_pending_branch envProbe initialState "Dinuka").1 rfl

/-- Counterexample for C9: in the state with both preferences unset and no
pending question, the guard branch of the Router sets the awaiting cursor,
so preferences and cursor are not left unchanged outside branches 1 and 2. -/
theorem c9_counterexample :
    (generate_response envProbe stGuardGap "good morning").1 ≠ stGuardGap
    ∧ (generate_response envProbe stGuardGap "good morning").1.awaiting_preference
        = some Awaiting.name
    ∧ stGuardGap.awaiting_preference = none
    ∧ (generate_response envProbe stGuardGap "good morning").2
        = "Welcome! To personalize your experience, may I know your name?" := by
  refine ⟨by decide, rfl, rfl, rfl⟩

/-- Claim C9 (amended): in every state satisfying the reachable-state shape
relevant to the later branches (no pending question and both preferences
set), when neither manual-assertion phrase occurs, the guard, the keyword
branches and the fallback leave the whole session state unchanged.  In the
unreachable states with a preference unset and no pending question the
guard re-arms the awaiting cursor. -/
theorem c9_frame_amended (env : Env) (st : SessionState) (prompt : String)
    (n l : String)
    (hA : st.awaiting_preference = none)
    (h1 : strContains (pyLower prompt) "my name is" = false)
    (h2 : strContains (pyLower prompt) "set location to" = false)
    (hn : st.user_prefs.name = some n)
    (hl : st.user_prefs.location = some l) :
    (generate_response env st prompt).1 = st :=
  later_branches_frame env st prompt n l hA h1 h2 hn hl

/-- Witness for amended C9: a fallback utterance leaves the completed state
unchanged. -/
theorem c9_frame_amended_witness :
    (generate_response envProbe stDone "good morning").1 = stDone :=
  c9_frame_amended envProbe stDone "good morning" "alex" "colombo" rfl rfl rfl rfl rfl

/-- Claim C10: when the stored location is unset, the weather quick action
calls the weather lookup with the stored None value, never with the
"Colombo" fallback of handle_quick_action, because the location key is
always present in the preference dict. -/
theorem c10_quick_action_location (env : Env) (st : SessionState)
    (hl : st.user_prefs.location = none) :
    handle_quick_action env st "weather" = get_weather env none
    ∧ dictGet (prefsToDict st.user_prefs) "location" (some "Colombo") = none
    ∧ (∀ p : Prefs, dictGet (prefsToDict p) "location" (some "Colombo") = p.location) := by
  refine ⟨?_, ?_, fun p => rfl⟩
  · show get_weather env (dictGet (prefsToDict st.user_prefs) "location" (some "Colombo"))
        = get_weather env none
    rw [show dictGet (prefsToDict st.user_prefs) "location" (some "Colombo")
          = st.user_prefs.location from rfl, hl]
  · rw [show dictGet (prefsToDict st.user_prefs) "location" (some "Colombo")
          = st.user_prefs.location from rfl, hl]

/-- Witness for C10 at a state with the location unset. -/
theorem c10_quick_action_location_witness :
    handle_quick_action envProbe stLocUnset "weather" = get_weather envProbe none :=
  (c10_quick_action_location envProbe stLocUnset rfl).1

/-- Claim C1: with no pending question, no manual-assertion phrase and both
preferences set, the keyword branches fire in the fixed order weather, then
tasks or todo, then who am i, then help, then the generative fallback; each
conjunct assumes nothing about the later keywords, so the first matching
branch short-circuits the rest (in particular an utterance containing both
"weather" and "help" resolves as weather). -/
theorem c1_dispatch_order (env : Env) (st : SessionState) (prompt : String)
    (n l : String)
    (hA : st.awaiting_preference = none)
    (h1 : strContains (pyLower prompt) "my name is" = false)
    (h2 : strContains (pyLower prompt) "set location to" = false)
    (hn : st.user_prefs.name = some n)
    (hl : st.user_prefs.location = some l) :
    (strContains (pyLower prompt) "weather" = true →
      generate_response env st prompt =
        (st, get_weather env
          (if pyStrip (pyReplace (pyLower prompt) "weather" "") == ""
           then some l
           else some (pyStrip (pyReplace (pyLower prompt) "weather" "")))))
    ∧ (strContains (pyLower prompt) "weather" = false →
      (strContains (pyLower prompt) "tasks" || strContains (pyLower prompt) "todo") = true →
      generate_response env st prompt = (st, get_tasks env))
    ∧ (strContains (pyLower prompt) "weather" = false →
      strContains (pyLower prompt) "tasks" = false →
      strContains (pyLower prompt) "todo" = false →
      strContains (pyLower prompt) "who am i" = true →
      generate_response env st prompt =
        (st, "You are " ++ n ++ ", located in " ++ l ++ ". "))
    ∧ (strContains (pyLower prompt) "weather" = false →
      strContains (pyLower prompt) "tasks" = false →
      strContains (pyLower prompt) "todo" = false →
      strContains (pyLower prompt) "who am i" = false →
      strContains (pyLower prompt) "help" = true →
      generate_response env st prompt = (st, helpText))
    ∧ (strContains (pyLower prompt) "weather" = false →
      strContains (pyLower prompt) "tasks" = false →
      strContains (pyLower prompt) "todo" = false →
      strContains (pyLower prompt) "who am i" = false →
      strContains (pyLower prompt) "help" = false →
      generate_response env st prompt =
        (st, match env.genContent prompt with
             | Except.ok t => t
             | Except.error e => "Sorry, I encountered an error: " ++ e)) := by
  obtain ⟨⟨pn, pl⟩, aw, ms⟩ := st
  have hA2 : aw = none := hA
  have hn2 : pn = some n := hn
  have hl2 : pl = some l := hl
  subst hA2; subst hn2; subst hl2
  refine ⟨?_, ?_, ?_, ?_, ?_⟩
  · intro hw
    simp [generate_response, ask_preference_questions, h1, h2, hw]
  · intro hw hor
    simp [generate_response, ask_preference_questions, h1, h2, hw, hor]
  · intro hw hta htd hwho
    simp [generate_response, ask_preference_questions, h1, h2, hw, hta, htd, hwho, pyShowOptStr]
  · intro hw hta htd hwho hh
    simp [generate_response, ask_preference_questions, h1, h2, hw, hta, htd, hwho, hh]
  · intro hw hta htd hwho hh
    cases hg : env.genContent prompt with
    | ok t => simp [generate_response, ask_preference_questions, h1, h2, hw, hta, htd, hwho, hh, hg]
    | error e => simp [generate_response, ask_preference_questions, h1, h2, hw, hta, htd, hwho, hh, hg]

/-- Witness for C1: the utterance containing both "weather" and "help"
resolves as weather (here with override text "help"). -/
theorem c1_dispatch_order_witness :
    generate_response envProbe stDone "weather help" =
      (stDone, get_weather envProbe (some "help")) :=
  (c1_dispatch_order envProbe stDone "weather help" "alex" "colombo"
    rfl rfl rfl rfl rfl).1 rfl

/-- Counterexample for C3: with a completed state, the utterance
"weather Paris" makes the Router call the weather lookup with the
lowercased override "paris"; calling it with "Paris" (as the claim states)
would produce a different result under the probing oracle. -/
theorem c3_counterexample :
    generate_response envProbe stDone "weather Paris" =
      (stDone, "Error getting weather: paris")
    ∧ get_weather envProbe (some "paris") = "Error getting weather: paris"
    ∧ get_weather envProbe (some "Paris") = "Error getting weather: Paris"
    ∧ ("Error getting weather: paris" : String) ≠ "Error getting weather: Paris" := by
  refine ⟨by decide, rfl, rfl, by decide⟩

/-- Claim C3 (amended): in the weather branch, the Router lowercases the
utterance, deletes every occurrence of the word "weather", trims the
remainder and uses it as the override location when non-empty, falling back
on the stored location when empty.  "weather" with stored "Colombo" calls
the lookup with "Colombo"; "weather Paris" calls it with "paris". -/
theorem c3_weather_override (env : Env) (st : SessionState) (prompt : String)
    (n l : String)
    (hA : st.awaiting_preference = none)
    (h1 : strContains (pyLower prompt) "my name is" = false)
    (h2 : strContains (pyLower prompt) "set location to" = false)
    (hn : st.user_prefs.name = some n)
    (hl : st.user_prefs.location = some l)
    (hw : strContains (pyLower prompt) "weather" = true) :
    generate_response env st prompt =
      (st, get_weather env
        (if pyStrip (pyReplace (pyLower prompt) "weather" "") == ""
         then some l
         else some (pyStrip (pyReplace (pyLower prompt) "weather" "")))) := by
  obtain ⟨⟨pn, pl⟩, aw, ms⟩ := st
  have hA2 : aw = none := hA
  have hn2 : pn = some n := hn
  have hl2 : pl = some l := hl
  subst hA2; subst hn2; subst hl2
  simp [generate_response, ask_preference_questions, h1, h2, hw]

/-- Witness for amended C3: the bare utterance "weather" with stored
location "Colombo" calls the lookup with "Colombo". -/
theorem c3_weather_override_witness :
    generate_response envProbe stColombo "weather" =
      (stColombo, get_weather envProbe (some "Colombo")) :=
  c3_weather_override envProbe stColombo "weather" "alex" "Colombo"
    rfl rfl rfl rfl rfl rfl

/-- A raised weather-provider call is converted to the error text. -/
theorem get_weather_error (env : Env) (loc : Option String) (e : String)
    (h : env.weatherFetch loc = Except.error e) :
    get_weather env loc = "Error getting weather: " ++ e := by
  unfold get_weather
  rw [h]
  rfl

/-- Claim C4: under the later-branch conditions the Router leaves the
session state unchanged, and every external-call failure (weather provider,
task provider, generative model) is converted into the corresponding
user-facing error text rather than propagating. -/
theorem c4_failure_handling (env : Env) (st : SessionState) (prompt : String)
    (n l e1 e2 e3 : String)
    (hA : st.awaiting_preference = none)
    (h1 : strContains (pyLower prompt) "my name is" = false)
    (h2 : strContains (pyLower prompt) "set location to" = false)
    (hn : st.user_prefs.name = some n)
    (hl : st.user_prefs.location = some l) :
    (generate_response env st prompt).1 = st
    ∧ ((∀ q, env.weatherFetch q = Except.error e1) →
      strContains (pyLower prompt) "weather" = true →
      (generate_response env st prompt).2 = "Error getting weather: " ++ e1)
    ∧ (env.tasksHttp = TasksHttp.exn e2 →
      strContains (pyLower prompt) "weather" = false →
      (strContains (pyLower prompt) "tasks" || strContains (pyLower prompt) "todo") = true →
      (generate_response env st prompt).2 = "Error getting tasks: " ++ e2)
    ∧ (env.genContent prompt = Except.error e3 →
      strContains (pyLower prompt) "weather" = false →
      strContains (pyLower prompt) "tasks" = false →
      strContains (pyLower prompt) "todo" = false →
      strContains (pyLower prompt) "who am i" = false →
      strContains (pyLower prompt) "help" = false →
      (generate_response env st prompt).2 = "Sorry, I encountered an error: " ++ e3) := by
  refine ⟨later_branches_frame env st prompt n l hA h1 h2 hn hl, ?_, ?_, ?_⟩
  all_goals obtain ⟨⟨pn, pl⟩, aw, ms⟩ := st
  all_goals have hA2 : aw = none := hA
  all_goals have hn2 : pn = some n := hn
  all_goals have hl2 : pl = some l := hl
  all_goals subst hA2; subst hn2; subst hl2
  · intro hfail hw
    have hge : ∀ loc, get_weather env loc = "Error getting weather: " ++ e1 :=
      fun loc => get_weather_error env loc e1 (hfail loc)
    simp [generate_response, ask_preference_questions, h1, h2, hw, hge]
  · intro htask hw hor
    simp [generate_response, ask_preference_questions, h1, h2, hw, hor, get_tasks, htask]
  · intro hgen hw hta htd hwho hh
    simp [generate_response, ask_preference_questions, h1, h2, hw, hta, htd, hwho, hh, hgen]

/-- Witness for C4: on the all-failing oracle, the weather branch returns
the converted error text and the state is unchanged. -/
theorem c4_failure_handling_witness :
    (generate_response envFail stDone "weather").1 = stDone
    ∧ (generate_response envFail stDone "weather").2
        = "Error getting weather: weather down" :=
  ⟨(c4_failure_handling envFail stDone "weather" "alex" "colombo"
      "weather down" "x" "x" rfl rfl rfl rfl rfl).1,
   (c4_failure_handling envFail stDone "weather" "alex" "colombo"
      "weather down" "x" "x" rfl rfl rfl rfl rfl).2.1 (fun _ => rfl) rfl⟩

/-- Claim C5: for every parsed task response that is a list, the lookup
takes at most the first five entries, keeps exactly the record entries
carrying a "content" field as bullets, returns the no-valid-tasks text when
nothing remains and otherwise a header line with one bullet per task; in
particular the two concrete examples of the spec. -/
theorem c5_task_list_rendering :
    (∀ ts : List Json,
      get_tasks (mkTasksEnv ts) =
        (let kept := (ts.take 5).filterMap (fun t =>
            match t with
            | Json.jobj fs =>
              match lookupField fs "content" with
              | some v => some ("- " ++ Json.pyStr v)
              | none => none
            | _ => none)
         if kept.isEmpty then "No valid tasks found in your Todoist!"
         else "Here are your upcoming tasks:\n" ++ joinStrings "\n" kept))
    ∧ get_tasks (mkTasksEnv
        [Json.jobj [("content", Json.jstr "Buy milk")],
         Json.jobj [("content", Json.jstr "Call Bob")],
         Json.jobj [("notcontent", Json.jstr "x")]]) =
        "Here are your upcoming tasks:\n- Buy milk\n- Call Bob"
    ∧ get_tasks (mkTasksEnv []) = "No valid tasks found in your Todoist!" :=
  ⟨fun _ => rfl, rfl, rfl⟩

/-- Claim C8: a successful weather payload is rendered as the multi-line
summary carrying condition, Celsius and Fahrenheit temperature, humidity,
wind in km/h and mph and the UV index ("N/A" when the uv field is absent);
the Sunny example output contains each expected value, and a
provider-reported error payload is rendered with the provider detail. -/
theorem c8_weather_formatting :
    (∀ (loc : Option String) (ct tc tf hu wk wm uvv : String),
      get_weather (mkWeatherEnv (mkCurrentData ct tc tf hu wk wm (some (Json.jnum uvv)))) loc =
        "🌤️ Weather in " ++ pyShowOptStr loc ++ ":\n\n"
          ++ "☁️ Condition: " ++ ct ++ "\n"
          ++ "\n🌡️ Temperature: " ++ tc ++ "°C (" ++ tf ++ "°F)\n"
          ++ "\n💧 Humidity: " ++ hu ++ "%\n"
          ++ "\n🌬️ Wind: " ++ wk ++ " km/h (" ++ wm ++ " mph)\n"
          ++ "\n🌞 UV Index: " ++ uvv)
    ∧ (∀ (loc : Option String) (ct tc tf hu wk wm : String),
      get_weather (mkWeatherEnv (mkCurrentData ct tc tf hu wk wm none)) loc =
        "🌤️ Weather in " ++ pyShowOptStr loc ++ ":\n\n"
          ++ "☁️ Condition: " ++ ct ++ "\n"
          ++ "\n🌡️ Temperature: " ++ tc ++ "°C (" ++ tf ++ "°F)\n"
          ++ "\n💧 Humidity: " ++ hu ++ "%\n"
          ++ "\n🌬️ Wind: " ++ wk ++ " km/h (" ++ wm ++ " mph)\n"
          ++ "\n🌞 UV Index: " ++ "N/A")
    ∧ (∀ (loc : Option String) (m : String),
      get_weather (mkWeatherEnv (Json.jobj [("error", Json.jobj [("message", Json.jstr m)])])) loc =
        "Could not get weather: " ++ m)
    ∧ strContains (get_weather (mkWeatherEnv sunnyData) (some "Colombo")) "Sunny" = true
    ∧ strContains (get_weather (mkWeatherEnv sunnyData) (some "Colombo")) "25" = true
    ∧ strContains (get_weather (mkWeatherEnv sunnyData) (some "Colombo")) "77" = true
    ∧ strContains (get_weather (mkWeatherEnv sunnyData) (some "Colombo")) "40" = true
    ∧ strContains (get_weather (mkWeatherEnv sunnyData) (some "Colombo")) "10" = true
    ∧ strContains (get_weather (mkWeatherEnv sunnyData) (some "Colombo")) "6.2" = true
    ∧ strContains (get_weather (mkWeatherEnv sunnyData) (some "Colombo")) "5" = true :=
  ⟨fun _ _ _ _ _ _ _ _ => rfl,
   fun _ _ _ _ _ _ _ => rfl,
   fun _ _ => rfl,
   rfl, rfl, rfl, rfl, rfl, rfl, rfl⟩
